import Mathlib

/-!
Shallow embedding of the MIG-Flash cartridge dumper core, translated from
`src/mig/mig_flash.py` and `src/mig/mig_gui_interface.py`.

Modelling conventions:
* a byte is a `Nat`, a byte buffer is a `List Nat`;
* the block device is a total byte map `data : Nat → Nat` together with a
  predicate `ok : Nat → Nat → Bool` telling which positioned reads succeed
  (a failing read models an OS-level I/O exception being raised);
* Python exceptions are modelled with `Except`; exceptions the Python code
  catches internally are folded into the corresponding return value;
* the GUI controller's worker threads are modelled by recording each spawned
  worker (the Python methods construct and `start()` a `threading.Thread`
  unconditionally, so spawning is the only observable acceptance behaviour).
-/

/-- Sector size of the USB mass-storage device (mig_flash.py `SECTOR_SIZE`). -/
def SECTOR_SIZE : Nat := 512

namespace MemoryMap

def GPT_PARTITION_OFFSET : Nat := 0x00000400

def FIRMWARE_OFFSET : Nat := 0x209A4000

def FIRMWARE_VERSION_LEN : Nat := 16

def XCI_HEADER_OFFSET : Nat := 0x00100000

def XCI_HEADER_SIZE : Nat := 0x00000200

def XCI_CERT_OFFSET : Nat := 0x00100200

def XCI_CERT_SIZE : Nat := 0x00000200

def XCI_DATA_OFFSET : Nat := 0x00200000

end MemoryMap

/-- The four magic bytes of the string b'HEAD'. -/
def HEAD_MAGIC : List Nat := [0x48, 0x45, 0x41, 0x44]

/-- Platform-independent block device (mig_flash.py `BlockDevice`), reduced to
the observable state the claims need: the byte content served by reads, the
set of positioned reads that succeed, and whether the handle is open. -/
structure BlockDevice where
  data : Nat → Nat
  ok : Nat → Nat → Bool
  opened : Bool

/-- The bytes a successful positioned read of `len` bytes at `off` returns. -/
def readBytes (d : BlockDevice) (off len : Nat) : List Nat :=
  (List.range len).map (fun i => d.data (off + i))

/-- `BlockDevice.read_at`: positioned read; `none` models a raised I/O error. -/
def read_at (d : BlockDevice) (off len : Nat) : Option (List Nat) :=
  if d.ok off len then some (readBytes d off len) else none

/-- `BlockDevice.close`: a no-op when not opened, otherwise releases the
handle exactly once.  The second component counts handle releases
(unlock plus close of the OS handle) performed by this call. -/
def BlockDevice.close (d : BlockDevice) : BlockDevice × Nat :=
  if d.opened then ({ d with opened := false }, 1) else (d, 0)

/-- Python slicing `b[a:c]` on byte buffers. -/
def bslice (b : List Nat) (a c : Nat) : List Nat :=
  (b.drop a).take (c - a)

/-- Python indexing `b[i]` (the code only indexes in bounds, so the default
value 0 is never reached at the call sites the claims use). -/
def byteAt (b : List Nat) (i : Nat) : Nat :=
  b.getD i 0

/-- Little-endian integer value of a byte buffer (`struct.unpack` with a
`<I`/`<Q` format reads exactly this value from a 4- or 8-byte bslice). -/
def leBytes : List Nat → Nat
  | [] => 0
  | x :: xs => x + 256 * leBytes xs

/-- XCI file header structure (mig_flash.py `XCIHeader`, 0x200 bytes). -/
structure XCIHeader where
  signature : List Nat
  magic : List Nat
  secure_area_start : Nat
  backup_area_start : Nat
  title_key_dec_index : Nat
  game_card_size : Nat
  game_card_header_version : Nat
  game_card_flags : Nat
  package_id : Nat
  valid_data_end : Nat
  iv : List Nat
  hfs0_partition_offset : Nat
  hfs0_header_size : Nat
  sha256_hash : List Nat
  init_data_hash : List Nat
  secure_mode_flag : Nat
  title_key_flag : Nat
  key_flag : Nat
  normal_area_end : Nat
deriving Repr, DecidableEq

/-- `XCIHeader.from_bytes`: parse the header from raw bytes; `none` models the
`ValueError` raised when fewer than 0x200 bytes are supplied. -/
def XCIHeader.from_bytes (data : List Nat) : Option XCIHeader :=
  if data.length < 0x200 then none
  else some {
    signature := bslice data 0x000 0x100
    magic := bslice data 0x100 0x104
    secure_area_start := leBytes (bslice data 0x104 0x108)
    backup_area_start := leBytes (bslice data 0x108 0x10C)
    title_key_dec_index := byteAt data 0x10C
    game_card_size := byteAt data 0x10D
    game_card_header_version := byteAt data 0x10E
    game_card_flags := byteAt data 0x10F
    package_id := leBytes (bslice data 0x110 0x118)
    valid_data_end := leBytes (bslice data 0x118 0x120)
    iv := bslice data 0x120 0x130
    hfs0_partition_offset := leBytes (bslice data 0x130 0x138)
    hfs0_header_size := leBytes (bslice data 0x138 0x140)
    sha256_hash := bslice data 0x140 0x160
    init_data_hash := bslice data 0x160 0x180
    secure_mode_flag := byteAt data 0x180
    title_key_flag := byteAt data 0x181
    key_flag := byteAt data 0x182
    normal_area_end := leBytes (bslice data 0x183 0x187) }

/-- `XCIHeader.is_valid`: the magic tag equals b'HEAD'. -/
def XCIHeader.is_valid (h : XCIHeader) : Bool :=
  h.magic == HEAD_MAGIC

/-- `XCIHeader.cart_size_bytes`: fixed lookup table keyed by the capacity
class code; unknown codes map to 0 (Python `sizes.get(self.game_card_size, 0)`). -/
def XCIHeader.cart_size_bytes (h : XCIHeader) : Nat :=
  if h.game_card_size = 0xFA then 1 * 1024 * 1024 * 1024
  else if h.game_card_size = 0xF8 then 2 * 1024 * 1024 * 1024
  else if h.game_card_size = 0xF0 then 4 * 1024 * 1024 * 1024
  else if h.game_card_size = 0xE0 then 8 * 1024 * 1024 * 1024
  else if h.game_card_size = 0xE1 then 16 * 1024 * 1024 * 1024
  else if h.game_card_size = 0xE2 then 32 * 1024 * 1024 * 1024
  else 0

/-- Switch cartridge information (mig_flash.py `CartridgeInfo`). -/
structure CartridgeInfo where
  inserted : Bool
  authenticated : Bool
  title_id : String
  title_name : String
  version : String
  size : Nat
  trimmed_size : Nat
deriving Repr, DecidableEq

/-- Errors raised by the session layer.  `outOfRange` belongs to the spec's
error taxonomy and is listed so statements about it can be expressed; the
Python code never raises it. -/
inductive MigErr where
  | notConnected
  | noCartridge
  | authRequired
  | outOfRange
  | ioError
deriving Repr, DecidableEq

deriving instance DecidableEq for Except

/-- Session state of mig_flash.py `MIGFlash`: the (possibly absent) block
device handle and the cached fields `_connected`, `_firmware_version`,
`_cart_info`, `_xci_header`. -/
structure MIGFlash where
  device : Option BlockDevice
  connected : Bool
  firmware_version : Option String
  cart_info : Option CartridgeInfo
  xci_header : Option XCIHeader

/-- A device read issued through `self.device`: when the handle is absent the
Python attribute access raises, which the model reports as a failed read. -/
def MIGFlash.dev_read (m : MIGFlash) (off len : Nat) : Option (List Nat) :=
  match m.device with
  | none => none
  | some d => read_at d off len

/-- `MIGFlash.disconnect`: best-effort close of the device handle (errors are
swallowed), then all cached fields are cleared.  The second component counts
handle releases performed by this call. -/
def MIGFlash.disconnect (m : MIGFlash) : MIGFlash × Nat :=
  let released := match m.device with
    | some d => (d.close).2
    | none => 0
  ({ device := none, connected := false, firmware_version := none,
     cart_info := none, xci_header := none }, released)

/-- `MIGFlash.cart_inserted` property: `False` when not connected, `False`
when the 4-byte read raises (the `except` branch), and otherwise compares the
4 bytes at `XCI_HEADER_OFFSET` with b'HEAD'. -/
def MIGFlash.cart_inserted (m : MIGFlash) : Bool :=
  if m.connected then
    match m.dev_read MemoryMap.XCI_HEADER_OFFSET 4 with
    | none => false
    | some d => d == HEAD_MAGIC
  else false

/-- `MIGFlash.cart_authenticated` property. -/
def MIGFlash.cart_authenticated (m : MIGFlash) : Bool :=
  match m.cart_info with
  | some ci => ci.authenticated
  | none => false

/-- `MIGFlash.authenticate`: raises when not connected or no cartridge is
inserted; otherwise reads and parses the 0x200-byte header.  Exceptions inside
the `try` block (failed read, short-buffer `ValueError`) are caught and the
method returns `False`.  On an invalid magic the parsed header is still stored
in `_xci_header` but `_cart_info` is not populated and `False` is returned. -/
def MIGFlash.authenticate (m : MIGFlash) : Except MigErr (MIGFlash × Bool) :=
  if m.connected then
    if m.cart_inserted then
      match m.dev_read MemoryMap.XCI_HEADER_OFFSET MemoryMap.XCI_HEADER_SIZE with
      | none => Except.ok (m, false)
      | some header_data =>
        match XCIHeader.from_bytes header_data with
        | none => Except.ok (m, false)
        | some h =>
          if h.is_valid then
            Except.ok ({ m with
              xci_header := some h,
              cart_info := some {
                inserted := true
                authenticated := true
                title_id := ""
                title_name := ""
                version := ""
                size := h.cart_size_bytes
                trimmed_size := h.valid_data_end * 0x200 } }, true)
          else
            Except.ok ({ m with xci_header := some h }, false)
    else Except.error MigErr.noCartridge
  else Except.error MigErr.notConnected

/-- `MIGFlash.get_xci_header`: returns the cached header when authenticated,
otherwise attempts `authenticate` first and raises `Authentication required`
only if that attempt reports failure. -/
def MIGFlash.get_xci_header (m : MIGFlash) :
    Except MigErr (MIGFlash × Option XCIHeader) :=
  if m.cart_authenticated then Except.ok (m, m.xci_header)
  else
    match m.authenticate with
    | Except.error e => Except.error e
    | Except.ok (mA, true) => Except.ok (mA, mA.xci_header)
    | Except.ok (_, false) => Except.error MigErr.authRequired

/-- `MIGFlash.get_xci_size`: `(total, trimmed)` sizes derived from the header
returned by `get_xci_header`; `(0, 0)` when no header is cached. -/
def MIGFlash.get_xci_size (m : MIGFlash) :
    Except MigErr (MIGFlash × (Nat × Nat)) :=
  match m.get_xci_header with
  | Except.error e => Except.error e
  | Except.ok (mA, some h) =>
      Except.ok (mA, (h.cart_size_bytes, h.valid_data_end * 0x200))
  | Except.ok (mA, none) => Except.ok (mA, (0, 0))

/-- `MIGFlash.read_xci`: checks only that the cartridge is authenticated, then
delegates to a positioned read at `XCI_DATA_OFFSET + offset`.  There is no
bounds check of `offset + length` against any size. -/
def MIGFlash.read_xci (m : MIGFlash) (offset length : Nat) :
    Except MigErr (List Nat) :=
  if m.cart_authenticated then
    match m.dev_read (MemoryMap.XCI_DATA_OFFSET + offset) length with
    | none => Except.error MigErr.ioError
    | some d => Except.ok d
  else Except.error MigErr.authRequired

/-- Dump chunk size: 1 MiB. -/
def CHUNK_SIZE : Nat := 1024 * 1024

/-- How a dump run ends: normal completion, an `InterruptedError` raised by
the progress callback (cooperative abort), or an I/O error during a chunk
read. -/
inductive DumpOutcome where
  | completed
  | interrupted
  | ioError
deriving Repr, DecidableEq

/-- The `while offset < dump_size` loop of `MIGFlash.dump_xci`.  Returns the
bytes written to the destination file, the list of `(bytes_done, total)`
arguments passed to the progress callback, and the outcome.  `abortsAt n`
models the progress callback raising `InterruptedError` when invoked with
`bytes_done = n` (the GUI callback checks the abort flag before anything
else, including its rate throttle).  The chunk read via `read_xci` is written
to the file before the callback runs, so an aborting callback still leaves
that chunk in the output. -/
def dumpLoop (m : MIGFlash) (abortsAt : Nat → Bool) (dump_size offset : Nat) :
    List Nat × List (Nat × Nat) × DumpOutcome :=
  if h : offset < dump_size then
    match hr : m.read_xci offset (min CHUNK_SIZE (dump_size - offset)) with
    | Except.error _ => ([], [], DumpOutcome.ioError)
    | Except.ok data =>
      if abortsAt (offset + data.length) then
        (data, [(offset + data.length, dump_size)], DumpOutcome.interrupted)
      else
        let r := dumpLoop m abortsAt dump_size (offset + data.length)
        (data ++ r.1, (offset + data.length, dump_size) :: r.2.1, r.2.2)
  else ([], [], DumpOutcome.completed)
termination_by dump_size - offset
decreasing_by
  have hlen : data.length = min CHUNK_SIZE (dump_size - offset) := by
    unfold MIGFlash.read_xci MIGFlash.dev_read read_at at hr
    split at hr
    · split at hr
      · exact absurd hr (by simp)
      · rename_i x d hd
        injection hr with hde
        subst hde
        split at hd
        · exact absurd hd (by simp)
        · split at hd
          · injection hd with hdb
            rw [← hdb]
            simp [readBytes]
          · exact absurd hd (by simp)
    · exact absurd hr (by simp)
  have hc : 0 < CHUNK_SIZE := by norm_num [CHUNK_SIZE]
  omega

/-- `MIGFlash.dump_xci`: authenticates first when needed (raising
`Authentication required` if that fails), computes the dump size from
`get_xci_size`, then streams the image in 1 MiB chunks. -/
def MIGFlash.dump_xci (m : MIGFlash) (trimmed : Bool) (abortsAt : Nat → Bool) :
    Except MigErr (MIGFlash × (List Nat × List (Nat × Nat) × DumpOutcome)) :=
  match (if m.cart_authenticated then Except.ok (m, true) else m.authenticate :
      Except MigErr (MIGFlash × Bool)) with
  | Except.error e => Except.error e
  | Except.ok (_, false) => Except.error MigErr.authRequired
  | Except.ok (mA, true) =>
    match mA.get_xci_size with
    | Except.error e => Except.error e
    | Except.ok (mB, (total_size, trimmed_size)) =>
      let dump_size := if trimmed then trimmed_size else total_size
      Except.ok (mB, dumpLoop mB abortsAt dump_size 0)

/-- Device/cartridge state machine of mig_gui_interface.py `MIGState`. -/
inductive MIGState where
  | DISCONNECTED
  | CONNECTING
  | CONNECTED
  | NO_CART
  | CART_DETECTED
  | AUTHENTICATING
  | AUTHENTICATED
  | DUMPING
  | ERROR
deriving Repr, DecidableEq

/-- Events sent to the GUI (mig_gui_interface.py `MIGEvent`). -/
inductive MIGEvent where
  | DEVICE_CONNECTED
  | DEVICE_DISCONNECTED
  | CART_INSERTED
  | CART_REMOVED
  | AUTH_STARTED
  | AUTH_SUCCESS
  | AUTH_FAILED
  | DUMP_STARTED
  | DUMP_PROGRESS
  | DUMP_COMPLETE
  | DUMP_ERROR
  | ERROR
deriving Repr, DecidableEq

/-- The kind of background worker thread an async method starts. -/
inductive WorkerKind where
  | connectW
  | authW
  | dumpW
deriving Repr, DecidableEq

/-- What an async entry point does with a call: spawn a worker thread, or
reject the call with `Busy`.  The second alternative belongs to the spec's
vocabulary; the Python code never takes it. -/
inductive AsyncAction where
  | spawned
  | rejectedBusy
deriving Repr, DecidableEq

/-- GUI controller state (mig_gui_interface.py `MIGController`): the wrapped
session, the state machine value, cached cart info/header, the cooperative
abort flag, the monitoring flag, and the list of worker threads started so
far (newest first).  Reassigning `_worker_thread` in Python does not stop the
previous thread, so every started worker stays live in this list. -/
structure MIGController where
  mig : Option MIGFlash
  state : MIGState
  cart_info : Option CartridgeInfo
  xci_header : Option XCIHeader
  abort_flag : Bool
  monitoring : Bool
  workers : List WorkerKind

/-- `MIGController.is_connected` property. -/
def MIGController.is_connected (c : MIGController) : Bool :=
  match c.mig with
  | none => false
  | some m => m.connected

/-- `MIGController.authenticate` (synchronous): raises when no session
object exists; otherwise forwards to `MIGFlash.authenticate` and on a `False`
result moves the state machine to `ERROR`, on `True` caches the session's
header and cart info and moves to `AUTHENTICATED`.  An exception from the
session propagates and leaves the controller state untouched. -/
def MIGController.authenticate (c : MIGController) :
    Except MigErr (MIGController × Bool) :=
  match c.mig with
  | none => Except.error MigErr.notConnected
  | some m =>
    match m.authenticate with
    | Except.error e => Except.error e
    | Except.ok (mA, true) =>
        Except.ok ({ c with
          mig := some mA
          xci_header := mA.xci_header
          cart_info := mA.cart_info
          state := MIGState.AUTHENTICATED }, true)
    | Except.ok (mA, false) =>
        Except.ok ({ c with mig := some mA, state := MIGState.ERROR }, false)

/-- `MIGController.authenticate_async`: constructs and starts a fresh worker
thread unconditionally — the method consults no busy state before spawning. -/
def MIGController.authenticate_async (c : MIGController) :
    MIGController × AsyncAction :=
  ({ c with workers := WorkerKind.authW :: c.workers }, AsyncAction.spawned)

/-- `MIGController.dump_xci_async`: constructs and starts a fresh worker
thread unconditionally — the method consults no busy state before spawning. -/
def MIGController.dump_xci_async (c : MIGController) (filename : String)
    (trimmed : Bool) : MIGController × AsyncAction :=
  ({ c with workers := WorkerKind.dumpW :: c.workers }, AsyncAction.spawned)

/-- `MIGController.abort_dump`: sets the cooperative cancellation flag. -/
def MIGController.abort_dump (c : MIGController) : MIGController :=
  { c with abort_flag := true }

/-- Message of the `DUMP_ERROR` event emitted when the dump worker catches
the `InterruptedError` raised by the abort check. -/
def ABORT_MESSAGE : String := "Dump aborted by user"

/-- Message of the terminal `DUMP_COMPLETE` event. -/
def COMPLETE_MESSAGE : String := "Dump complete"

/-- Generic message standing for the stringified exception attached to a
`DUMP_ERROR` event on the error path. -/
def ERROR_MESSAGE : String := "Dump error"

/-- Observable result of one run of the `dump_xci_async` worker body. -/
structure DumpRun where
  finalState : MIGState
  finalEvent : MIGEvent
  finalMessage : String
  written : List Nat
  progressCalls : List (Nat × Nat)
deriving Repr

/-- The body of the worker thread started by `dump_xci_async`: clears the
abort flag, runs the dump with the abort-checking progress callback, and
converts the outcome — normal return gives `AUTHENTICATED`/`DUMP_COMPLETE`,
`InterruptedError` gives `AUTHENTICATED` and a `DUMP_ERROR` event with the
abort message, any other exception gives `ERROR`/`DUMP_ERROR`.  `abortsAt n`
tells whether the abort flag is observed set when the progress callback runs
with `bytes_done = n`. -/
def MIGController.dump_worker (c : MIGController) (trimmed : Bool)
    (abortsAt : Nat → Bool) : DumpRun :=
  match c.mig with
  | none =>
      { finalState := MIGState.ERROR, finalEvent := MIGEvent.DUMP_ERROR,
        finalMessage := ERROR_MESSAGE, written := [], progressCalls := [] }
  | some m =>
    match m.dump_xci trimmed abortsAt with
    | Except.error _ =>
        { finalState := MIGState.ERROR, finalEvent := MIGEvent.DUMP_ERROR,
          finalMessage := ERROR_MESSAGE, written := [], progressCalls := [] }
    | Except.ok (_, (bytes, prog, out)) =>
      match out with
      | DumpOutcome.completed =>
          { finalState := MIGState.AUTHENTICATED,
            finalEvent := MIGEvent.DUMP_COMPLETE,
            finalMessage := COMPLETE_MESSAGE,
            written := bytes, progressCalls := prog }
      | DumpOutcome.interrupted =>
          { finalState := MIGState.AUTHENTICATED,
            finalEvent := MIGEvent.DUMP_ERROR,
            finalMessage := ABORT_MESSAGE,
            written := bytes, progressCalls := prog }
      | DumpOutcome.ioError =>
          { finalState := MIGState.ERROR,
            finalEvent := MIGEvent.DUMP_ERROR,
            finalMessage := ERROR_MESSAGE,
            written := bytes, progressCalls := prog }

/-- The polling loop of `start_monitoring`, one entry of the sample list per
tick: each tick observes `(is_connected, cart_inserted)`.  A connection loss
emits `DEVICE_DISCONNECTED` and resets both remembered values; a tick with no
connection otherwise leaves the remembered values untouched (`continue`);
with a connection, an edge of the cartridge value emits `CART_INSERTED` or
`CART_REMOVED`, and an unchanged value emits nothing. -/
def monitorRun (wasConnected hadCart : Bool) :
    List (Bool × Bool) → List MIGEvent
  | [] => []
  | (isConnected, hasCart) :: rest =>
    if wasConnected && !isConnected then
      MIGEvent.DEVICE_DISCONNECTED :: monitorRun false false rest
    else if !isConnected then
      monitorRun wasConnected hadCart rest
    else if !hadCart && hasCart then
      MIGEvent.CART_INSERTED :: monitorRun isConnected hasCart rest
    else if hadCart && !hasCart then
      MIGEvent.CART_REMOVED :: monitorRun isConnected hasCart rest
    else
      monitorRun isConnected hasCart rest

/-- Helper for building header fixtures: a header whose magic is valid and
whose capacity class code and valid-data-end counter are given. -/
def mkHeader (code vde : Nat) : XCIHeader where
  signature := []
  magic := HEAD_MAGIC
  secure_area_start := 0
  backup_area_start := 0
  title_key_dec_index := 0
  game_card_size := code
  game_card_header_version := 0
  game_card_flags := 0
  package_id := 0
  valid_data_end := vde
  iv := []
  hfs0_partition_offset := 0
  hfs0_header_size := 0
  sha256_hash := []
  init_data_hash := []
  secure_mode_flag := 0
  title_key_flag := 0
  key_flag := 0
  normal_area_end := 0

/-- A device on which every read succeeds and every byte is zero. -/
def zeroDev : BlockDevice where
  data := fun _ => 0
  ok := fun _ _ => true
  opened := true

/-- Authenticated session fixture whose header declares an unknown capacity
class code, hence total size 0 (as `MIGFlash.authenticate` would produce for
such a header). -/
def c1mig : MIGFlash where
  device := some zeroDev
  connected := true
  firmware_version := none
  cart_info := some {
    inserted := true
    authenticated := true
    title_id := ""
    title_name := ""
    version := ""
    size := 0
    trimmed_size := 2048 }
  xci_header := some (mkHeader 0 4)

/-- Header-region byte map presenting b'HEAD' at the start of the region (so
`cart_inserted` is true) but a zero magic at region offset 0x100 (so the
parsed header is invalid). -/
def c2byte (i : Nat) : Nat :=
  if i = 0 then 0x48
  else if i = 1 then 0x45
  else if i = 2 then 0x41
  else if i = 3 then 0x44
  else 0

/-- Device serving the invalid-magic header region. -/
def c2dev : BlockDevice where
  data := fun a => c2byte (a - MemoryMap.XCI_HEADER_OFFSET)
  ok := fun _ _ => true
  opened := true

/-- Connected, cartridge-present, unauthenticated session over `c2dev`. -/
def c2mig : MIGFlash where
  device := some c2dev
  connected := true
  firmware_version := none
  cart_info := none
  xci_header := none

/-- Controller wrapping `c2mig`. -/
def c2ctrl : MIGController where
  mig := some c2mig
  state := MIGState.CART_DETECTED
  cart_info := none
  xci_header := none
  abort_flag := false
  monitoring := false
  workers := []

/-- Controller that already has one dump worker in flight. -/
def c3busy : MIGController where
  mig := none
  state := MIGState.DUMPING
  cart_info := none
  xci_header := none
  abort_flag := false
  monitoring := false
  workers := [WorkerKind.dumpW]

/-- Controller that already has one authenticate worker in flight. -/
def c3busy2 : MIGController where
  mig := none
  state := MIGState.AUTHENTICATING
  cart_info := none
  xci_header := none
  abort_flag := false
  monitoring := false
  workers := [WorkerKind.authW]

/-- Output filename fixture. -/
def c3file : String := "out.xci"

/-- Header-region byte map of a valid 32 GiB-class header: b'HEAD' at region
offsets 0 and 0x100, capacity class code 0xE2 at 0x10D, and little-endian
2,000,000 (= 0x1E8480) at 0x118. -/
def c4byte (i : Nat) : Nat :=
  if i = 0 then 0x48
  else if i = 1 then 0x45
  else if i = 2 then 0x41
  else if i = 3 then 0x44
  else if i = 0x100 then 0x48
  else if i = 0x101 then 0x45
  else if i = 0x102 then 0x41
  else if i = 0x103 then 0x44
  else if i = 0x10D then 0xE2
  else if i = 0x118 then 0x80
  else if i = 0x119 then 0x84
  else if i = 0x11A then 0x1E
  else 0

/-- Device serving the valid 32 GiB-class header region. -/
def c4dev : BlockDevice where
  data := fun a => c4byte (a - MemoryMap.XCI_HEADER_OFFSET)
  ok := fun _ _ => true
  opened := true

/-- Connected, unauthenticated session over `c4dev`. -/
def c4mig : MIGFlash where
  device := some c4dev
  connected := true
  firmware_version := none
  cart_info := none
  xci_header := none

/-- Header-region byte map of a valid 16 GiB-class header with valid-data-end
counter 10: b'HEAD' at region offsets 0 and 0x100, class code 0xE1 at 0x10D,
and 10 at 0x118. -/
def c6byte (i : Nat) : Nat :=
  if i = 0 then 0x48
  else if i = 1 then 0x45
  else if i = 2 then 0x41
  else if i = 3 then 0x44
  else if i = 0x100 then 0x48
  else if i = 0x101 then 0x45
  else if i = 0x102 then 0x41
  else if i = 0x103 then 0x44
  else if i = 0x10D then 0xE1
  else if i = 0x118 then 10
  else 0

/-- Device serving the valid 16 GiB-class header region. -/
def c6dev : BlockDevice where
  data := fun a => c6byte (a - MemoryMap.XCI_HEADER_OFFSET)
  ok := fun _ _ => true
  opened := true

/-- Connected, unauthenticated session over `c6dev`. -/
def c6mig : MIGFlash where
  device := some c6dev
  connected := true
  firmware_version := none
  cart_info := none
  xci_header := none

/-- Already-authenticated session holding the 16 GiB-class header. -/
def c6auth : MIGFlash where
  device := some c6dev
  connected := true
  firmware_version := none
  cart_info := some {
    inserted := true
    authenticated := true
    title_id := ""
    title_name := ""
    version := ""
    size := 17179869184
    trimmed_size := 5120 }
  xci_header := some (mkHeader 0xE1 10)

/-- Authenticated session fixture whose header gives a 2048-byte trimmed
dump (valid-data-end 4). -/
def c7mig : MIGFlash where
  device := some zeroDev
  connected := true
  firmware_version := none
  cart_info := some {
    inserted := true
    authenticated := true
    title_id := ""
    title_name := ""
    version := ""
    size := 34359738368
    trimmed_size := 2048 }
  xci_header := some (mkHeader 0xE2 4)

/-- Controller wrapping `c7mig`, mid-dump. -/
def c7ctrl : MIGController where
  mig := some c7mig
  state := MIGState.DUMPING
  cart_info := none
  xci_header := none
  abort_flag := true
  monitoring := false
  workers := [WorkerKind.dumpW]

/-- Abort-flag observation fixture: the flag is observed set by every
progress-callback invocation from 1000 written bytes onwards. -/
def c7ab : Nat → Bool := fun n => decide (1000 ≤ n)

/-- Disconnected session fixture. -/
def c10mig : MIGFlash where
  device := none
  connected := false
  firmware_version := none
  cart_info := none
  xci_header := none

/-- 0x200-byte all-zero buffer. -/
def bC5 : List Nat := List.replicate 0x200 0

theorem readBytes_length (d : BlockDevice) (off len : Nat) :
    (readBytes d off len).length = len := by
  simp [readBytes]

theorem dev_read_length {m : MIGFlash} {off len : Nat} {b : List Nat}
    (h : m.dev_read off len = some b) : b.length = len := by
  unfold MIGFlash.dev_read at h
  split at h
  · exact absurd h (by simp)
  · unfold read_at at h
    split at h
    · injection h with h2
      rw [← h2]
      simp [readBytes]
    · exact absurd h (by simp)

theorem dev_read_all_ok {m : MIGFlash} {d : BlockDevice} (off len : Nat)
    (hdev : m.device = some d) (hok : ∀ a b, d.ok a b = true) :
    m.dev_read off len = some (readBytes d off len) := by
  unfold MIGFlash.dev_read read_at
  rw [hdev]
  simp [hok]

theorem read_xci_all_ok {m : MIGFlash} {d : BlockDevice} (o l : Nat)
    (hdev : m.device = some d) (hok : ∀ a b, d.ok a b = true)
    (hauth : m.cart_authenticated = true) :
    m.read_xci o l =
      Except.ok (readBytes d (MemoryMap.XCI_DATA_OFFSET + o) l) := by
  unfold MIGFlash.read_xci
  rw [hauth]
  simp [dev_read_all_ok _ _ hdev hok]

theorem read_xci_ne_outOfRange (m : MIGFlash) (o l : Nat) :
    m.read_xci o l ≠ Except.error MigErr.outOfRange := by
  unfold MIGFlash.read_xci
  split
  · split <;> simp
  · simp

theorem getLast?_cons_of_getLast? {α : Type} {l : List α} {x : α} (a : α)
    (h : l.getLast? = some x) : (a :: l).getLast? = some x := by
  cases l with
  | nil => simp at h
  | cons y ys =>
    rw [List.getLast?_cons_cons]
    exact h

theorem dumpLoop_done (m : MIGFlash) (ab : Nat → Bool) {dump_size offset : Nat}
    (hge : dump_size ≤ offset) :
    dumpLoop m ab dump_size offset = ([], [], DumpOutcome.completed) := by
  unfold dumpLoop
  rw [dif_neg (by omega)]

theorem dumpLoop_step_ok (m : MIGFlash) (ab : Nat → Bool)
    {dump_size offset : Nat} {bs : List Nat} (hlt : offset < dump_size)
    (hread : m.read_xci offset (min CHUNK_SIZE (dump_size - offset)) =
      Except.ok bs)
    (habf : ab (offset + bs.length) = false) :
    dumpLoop m ab dump_size offset =
      (bs ++ (dumpLoop m ab dump_size (offset + bs.length)).1,
       (offset + bs.length, dump_size) ::
         (dumpLoop m ab dump_size (offset + bs.length)).2.1,
       (dumpLoop m ab dump_size (offset + bs.length)).2.2) := by
  conv_lhs => rw [dumpLoop]
  rw [dif_pos hlt]
  split
  · rename_i e heq
    rw [hread] at heq
    exact absurd heq (by simp)
  · rename_i data heq
    rw [hread] at heq
    injection heq with h2
    subst h2
    rw [if_neg (by rw [habf]; simp)]

theorem dumpLoop_step_abort (m : MIGFlash) (ab : Nat → Bool)
    {dump_size offset : Nat} {bs : List Nat} (hlt : offset < dump_size)
    (hread : m.read_xci offset (min CHUNK_SIZE (dump_size - offset)) =
      Except.ok bs)
    (habt : ab (offset + bs.length) = true) :
    dumpLoop m ab dump_size offset =
      (bs, [(offset + bs.length, dump_size)], DumpOutcome.interrupted) := by
  conv_lhs => rw [dumpLoop]
  rw [dif_pos hlt]
  split
  · rename_i e heq
    rw [hread] at heq
    exact absurd heq (by simp)
  · rename_i data heq
    rw [hread] at heq
    injection heq with h2
    subst h2
    rw [if_pos (by rw [habt])]

theorem dumpLoop_complete {m : MIGFlash} {d : BlockDevice} {ab : Nat → Bool}
    (hdev : m.device = some d) (hok : ∀ a b, d.ok a b = true)
    (hauth : m.cart_authenticated = true) (hab : ∀ n, ab n = false)
    (dump_size : Nat) :
    ∀ offset, offset ≤ dump_size →
      (dumpLoop m ab dump_size offset).1.length = dump_size - offset ∧
      (dumpLoop m ab dump_size offset).2.2 = DumpOutcome.completed ∧
      (offset < dump_size →
        (dumpLoop m ab dump_size offset).2.1.getLast? =
          some (dump_size, dump_size)) := by
  suffices H : ∀ k offset, dump_size - offset = k → offset ≤ dump_size →
      (dumpLoop m ab dump_size offset).1.length = dump_size - offset ∧
      (dumpLoop m ab dump_size offset).2.2 = DumpOutcome.completed ∧
      (offset < dump_size →
        (dumpLoop m ab dump_size offset).2.1.getLast? =
          some (dump_size, dump_size)) by
    intro offset hle
    exact H (dump_size - offset) offset rfl hle
  intro k
  induction k using Nat.strong_induction_on with
  | _ k ih =>
    intro offset hk hle
    rcases eq_or_lt_of_le hle with heq | hlt
    · rw [heq, dumpLoop_done m ab (le_refl _)]
      refine ⟨by simp, rfl, fun hc => absurd hc (by omega)⟩
    · have hread := read_xci_all_ok offset (min CHUNK_SIZE (dump_size - offset))
        hdev hok hauth
      have hblen : (readBytes d (MemoryMap.XCI_DATA_OFFSET + offset)
          (min CHUNK_SIZE (dump_size - offset))).length =
          min CHUNK_SIZE (dump_size - offset) := readBytes_length _ _ _
      have hck : 0 < CHUNK_SIZE := by norm_num [CHUNK_SIZE]
      have habf := hab (offset + (readBytes d (MemoryMap.XCI_DATA_OFFSET + offset)
          (min CHUNK_SIZE (dump_size - offset))).length)
      rw [dumpLoop_step_ok m ab hlt hread habf]
      have ih' := ih (dump_size - (offset + (readBytes d
            (MemoryMap.XCI_DATA_OFFSET + offset)
            (min CHUNK_SIZE (dump_size - offset))).length))
        (by omega) _ rfl (by omega)
      refine ⟨?_, ?_, fun _ => ?_⟩
      · simp only [List.length_append, ih'.1]
        omega
      · exact ih'.2.1
      · by_cases hfin : offset + (readBytes d (MemoryMap.XCI_DATA_OFFSET + offset)
            (min CHUNK_SIZE (dump_size - offset))).length < dump_size
        · exact getLast?_cons_of_getLast? _ (ih'.2.2 hfin)
        · have hend : offset + (readBytes d (MemoryMap.XCI_DATA_OFFSET + offset)
              (min CHUNK_SIZE (dump_size - offset))).length = dump_size := by
            omega
          rw [hend, dumpLoop_done m ab (le_refl _)]
          simp

theorem dumpLoop_abort {m : MIGFlash} {d : BlockDevice} {ab : Nat → Bool}
    (hdev : m.device = some d) (hok : ∀ a b, d.ok a b = true)
    (hauth : m.cart_authenticated = true) (t : Nat)
    (hab : ∀ n, t ≤ n → ab n = true) (dump_size : Nat) (ht : t ≤ dump_size) :
    ∀ offset, offset < dump_size →
      (dumpLoop m ab dump_size offset).2.2 = DumpOutcome.interrupted ∧
      (dumpLoop m ab dump_size offset).1.length ≤ (t - offset) + CHUNK_SIZE := by
  suffices H : ∀ k offset, dump_size - offset = k → offset < dump_size →
      (dumpLoop m ab dump_size offset).2.2 = DumpOutcome.interrupted ∧
      (dumpLoop m ab dump_size offset).1.length ≤ (t - offset) + CHUNK_SIZE by
    intro offset hlt
    exact H (dump_size - offset) offset rfl hlt
  intro k
  induction k using Nat.strong_induction_on with
  | _ k ih =>
    intro offset hk hlt
    have hread := read_xci_all_ok offset (min CHUNK_SIZE (dump_size - offset))
      hdev hok hauth
    have hblen : (readBytes d (MemoryMap.XCI_DATA_OFFSET + offset)
        (min CHUNK_SIZE (dump_size - offset))).length =
        min CHUNK_SIZE (dump_size - offset) := readBytes_length _ _ _
    have hck : 0 < CHUNK_SIZE := by norm_num [CHUNK_SIZE]
    by_cases habt : ab (offset + (readBytes d (MemoryMap.XCI_DATA_OFFSET + offset)
        (min CHUNK_SIZE (dump_size - offset))).length) = true
    · rw [dumpLoop_step_abort m ab hlt hread habt]
      refine ⟨rfl, ?_⟩
      show (readBytes d (MemoryMap.XCI_DATA_OFFSET + offset)
          (min CHUNK_SIZE (dump_size - offset))).length ≤ (t - offset) + CHUNK_SIZE
      omega
    · have habf : ab (offset + (readBytes d (MemoryMap.XCI_DATA_OFFSET + offset)
          (min CHUNK_SIZE (dump_size - offset))).length) = false := by
        revert habt
        cases ab (offset + (readBytes d (MemoryMap.XCI_DATA_OFFSET + offset)
          (min CHUNK_SIZE (dump_size - offset))).length) <;> simp
      have hofft : offset + (readBytes d (MemoryMap.XCI_DATA_OFFSET + offset)
          (min CHUNK_SIZE (dump_size - offset))).length < t := by
        by_contra hge
        push_neg at hge
        exact habt (hab _ hge)
      have hlt' : offset + (readBytes d (MemoryMap.XCI_DATA_OFFSET + offset)
          (min CHUNK_SIZE (dump_size - offset))).length < dump_size := by
        omega
      rw [dumpLoop_step_ok m ab hlt hread habf]
      have ih' := ih (dump_size - (offset + (readBytes d
            (MemoryMap.XCI_DATA_OFFSET + offset)
            (min CHUNK_SIZE (dump_size - offset))).length))
        (by omega) _ rfl hlt'
      refine ⟨ih'.1, ?_⟩
      simp only [List.length_append]
      have := ih'.2
      omega

theorem bslice_eq_map {b : List Nat} {a c : Nat} (h : c ≤ b.length) :
    bslice b a c = (List.range' a (c - a)).map (fun i => byteAt b i) := by
  apply List.ext_getElem
  · simp [bslice]
    omega
  · intro i h1 h2
    simp only [bslice, List.getElem_take, List.getElem_drop, List.getElem_map,
      List.getElem_range', one_mul]
    have hbound : a + i < b.length := by
      simp [bslice] at h1
      omega
    rw [byteAt, List.getD_eq_getElem b 0 hbound]

theorem from_bytes_of_length {b : List Nat} (h : 0x200 ≤ b.length) :
    XCIHeader.from_bytes b = some {
      signature := bslice b 0x000 0x100
      magic := bslice b 0x100 0x104
      secure_area_start := leBytes (bslice b 0x104 0x108)
      backup_area_start := leBytes (bslice b 0x108 0x10C)
      title_key_dec_index := byteAt b 0x10C
      game_card_size := byteAt b 0x10D
      game_card_header_version := byteAt b 0x10E
      game_card_flags := byteAt b 0x10F
      package_id := leBytes (bslice b 0x110 0x118)
      valid_data_end := leBytes (bslice b 0x118 0x120)
      iv := bslice b 0x120 0x130
      hfs0_partition_offset := leBytes (bslice b 0x130 0x138)
      hfs0_header_size := leBytes (bslice b 0x138 0x140)
      sha256_hash := bslice b 0x140 0x160
      init_data_hash := bslice b 0x160 0x180
      secure_mode_flag := byteAt b 0x180
      title_key_flag := byteAt b 0x181
      key_flag := byteAt b 0x182
      normal_area_end := leBytes (bslice b 0x183 0x187) } := by
  unfold XCIHeader.from_bytes
  rw [if_neg (by omega)]

theorem cart_inserted_all_ok {m : MIGFlash} {d : BlockDevice}
    (hdev : m.device = some d) (hok : ∀ a b, d.ok a b = true)
    (hconn : m.connected = true) :
    m.cart_inserted =
      (readBytes d MemoryMap.XCI_HEADER_OFFSET 4 == HEAD_MAGIC) := by
  unfold MIGFlash.cart_inserted
  rw [dev_read_all_ok _ _ hdev hok]
  simp [hconn]

set_option maxRecDepth 4000 in
theorem authenticate_parse {m : MIGFlash} {d : BlockDevice} {hd : XCIHeader}
    (hdev : m.device = some d) (hok : ∀ a b, d.ok a b = true)
    (hconn : m.connected = true) (hins : m.cart_inserted = true)
    (hparse : XCIHeader.from_bytes (readBytes d MemoryMap.XCI_HEADER_OFFSET
      MemoryMap.XCI_HEADER_SIZE) = some hd) :
    m.authenticate =
      (if hd.is_valid then
        Except.ok ({ m with
          xci_header := some hd
          cart_info := some {
            inserted := true
            authenticated := true
            title_id := ""
            title_name := ""
            version := ""
            size := hd.cart_size_bytes
            trimmed_size := hd.valid_data_end * 0x200 } }, true)
      else Except.ok ({ m with xci_header := some hd }, false)) := by
  unfold MIGFlash.authenticate
  rw [if_pos hconn, if_pos hins, dev_read_all_ok MemoryMap.XCI_HEADER_OFFSET
    MemoryMap.XCI_HEADER_SIZE hdev hok]
  by_cases hv : hd.is_valid = true
  · rw [if_pos hv]
    split
    · rename_i heq
      exact absurd heq (by simp)
    · rename_i header_data heq
      injection heq with h2
      subst h2
      rw [hparse]
      split
      · rename_i heq2
        exact absurd heq2 (by simp)
      · rename_i hd2 heq2
        injection heq2 with h3
        subst h3
        rw [if_pos hv]
  · rw [if_neg hv]
    split
    · rename_i heq
      exact absurd heq (by simp)
    · rename_i header_data heq
      injection heq with h2
      subst h2
      rw [hparse]
      split
      · rename_i heq2
        exact absurd heq2 (by simp)
      · rename_i hd2 heq2
        injection heq2 with h3
        subst h3
        rw [if_neg hv]

/-- Claim C1 (counterexample): an authenticated, connected session whose
header declares total size 0 accepts `read_xci 0 1` — with
`offset + length = 1 > 0 = total` — returning the device byte instead of
failing with `OutOfRange`. -/
theorem C1_read_xci_counterexample :
    c1mig.cart_authenticated = true ∧
    Option.map CartridgeInfo.size c1mig.cart_info = some 0 ∧
    Option.map XCIHeader.cart_size_bytes c1mig.xci_header = some 0 ∧
    c1mig.read_xci 0 1 = Except.ok [0] ∧
    c1mig.read_xci 0 1 ≠ Except.error MigErr.outOfRange := by
  refine ⟨rfl, rfl, by decide, by decide, by decide⟩

/-- Claim C1 (amended): `read_xci` checks only authentication.  An
unauthenticated call fails with `Authentication required`; an authenticated
call delegates to a positioned device read at `XCI_DATA_OFFSET + offset` with
the requested length, with no bounds check of `offset + length` against the
image size, and no call ever fails with `OutOfRange`. -/
theorem C1_read_xci_no_bounds_check (m : MIGFlash) (d : BlockDevice)
    (offset length : Nat) (hdev : m.device = some d) :
    (m.cart_authenticated = false →
      m.read_xci offset length = Except.error MigErr.authRequired) ∧
    (m.cart_authenticated = true →
      d.ok (MemoryMap.XCI_DATA_OFFSET + offset) length = true →
      m.read_xci offset length =
        Except.ok (readBytes d (MemoryMap.XCI_DATA_OFFSET + offset) length)) ∧
    m.read_xci offset length ≠ Except.error MigErr.outOfRange := by
  refine ⟨?_, ?_, read_xci_ne_outOfRange m offset length⟩
  · intro hfa
    unfold MIGFlash.read_xci
    rw [if_neg (by simp [hfa])]
  · intro hauth hok1
    unfold MIGFlash.read_xci MIGFlash.dev_read read_at
    rw [if_pos hauth, hdev]
    simp [hok1]

/-- Claim C1 (witness): the amended theorem applied to the concrete
authenticated session. -/
theorem C1_read_xci_no_bounds_check_witness :
    c1mig.read_xci 2048 4 =
      Except.ok (readBytes zeroDev (MemoryMap.XCI_DATA_OFFSET + 2048) 4) :=
  (C1_read_xci_no_bounds_check c1mig zeroDev 2048 4 rfl).2.1 rfl rfl

/-- Claim C3 (counterexample): with one dump worker already in flight,
`dump_xci_async` spawns a second worker instead of rejecting the call with
`Busy`. -/
theorem C3_busy_counterexample :
    c3busy.workers = [WorkerKind.dumpW] ∧
    (c3busy.dump_xci_async c3file true).2 = AsyncAction.spawned ∧
    (c3busy.dump_xci_async c3file true).2 ≠ AsyncAction.rejectedBusy ∧
    (c3busy.dump_xci_async c3file true).1.workers =
      [WorkerKind.dumpW, WorkerKind.dumpW] := by
  refine ⟨rfl, rfl, by decide, rfl⟩

/-- Claim C3 (amended): the controller performs no busy check at all —
`dump_xci_async` and `authenticate_async` unconditionally start one more
worker thread even while another worker is active, so overlapping async
calls are never rejected with `Busy` and nothing serializes their effects. -/
theorem C3_async_always_spawns (c : MIGController) (filename : String)
    (trimmed : Bool) (hbusy : c.workers ≠ []) :
    (c.dump_xci_async filename trimmed).2 = AsyncAction.spawned ∧
    (c.dump_xci_async filename trimmed).1.workers.length =
      c.workers.length + 1 ∧
    (c.authenticate_async).2 = AsyncAction.spawned ∧
    (c.authenticate_async).1.workers.length = c.workers.length + 1 := by
  refine ⟨rfl, ?_, rfl, ?_⟩
  · simp [MIGController.dump_xci_async]
  · simp [MIGController.authenticate_async]

/-- Claim C3 (witness): the amended theorem applied to a controller with one
authenticate worker in flight. -/
theorem C3_async_always_spawns_witness :
    (c3busy2.dump_xci_async c3file true).2 = AsyncAction.spawned ∧
    (c3busy2.dump_xci_async c3file true).1.workers.length =
      c3busy2.workers.length + 1 ∧
    (c3busy2.authenticate_async).2 = AsyncAction.spawned ∧
    (c3busy2.authenticate_async).1.workers.length =
      c3busy2.workers.length + 1 :=
  C3_async_always_spawns c3busy2 c3file true (by decide)

/-- Claim C8: for the connected poll sequence `[false, false, true, true,
false]` of `cartridgeInserted()` values, the monitor emits exactly the two
edge events `CART_INSERTED` then `CART_REMOVED` (whether the first sample is
taken as the pre-loop baseline or as a loop poll), and a poll whose value is
unchanged from the previous sample emits no event. -/
theorem C8_monitor_edge_events :
    monitorRun true false
        [(true, false), (true, false), (true, true), (true, true),
         (true, false)] =
      [MIGEvent.CART_INSERTED, MIGEvent.CART_REMOVED] ∧
    monitorRun true false
        [(true, false), (true, true), (true, true), (true, false)] =
      [MIGEvent.CART_INSERTED, MIGEvent.CART_REMOVED] ∧
    (∀ (hadCart : Bool) (rest : List (Bool × Bool)),
      monitorRun true hadCart ((true, hadCart) :: rest) =
        monitorRun true hadCart rest) := by
  refine ⟨by decide, by decide, ?_⟩
  intro hadCart rest
  cases hadCart <;> simp [monitorRun]

/-- Claim C9: `BlockDevice.close` and `MIGFlash.disconnect` are idempotent —
the second of two consecutive calls performs zero handle releases, raises
nothing, and leaves the state exactly as the first call left it. -/
theorem C9_close_disconnect_idempotent :
    (∀ (d : BlockDevice), (d.close).1.close = ((d.close).1, 0)) ∧
    (∀ (m : MIGFlash), (m.disconnect).1.disconnect = ((m.disconnect).1, 0)) := by
  constructor
  · intro d
    by_cases hop : d.opened = true <;> simp [BlockDevice.close, hop]
  · intro m
    rfl

/-- Claim C10: reading `cart_inserted` never propagates an error: it is false
whenever the session is not connected, false when the 4-byte device read
fails, and true exactly when the 4 bytes read at the XCI header offset equal
b'HEAD'. -/
theorem C10_cart_inserted_total (m : MIGFlash) :
    (m.connected = false → m.cart_inserted = false) ∧
    (m.dev_read MemoryMap.XCI_HEADER_OFFSET 4 = none →
      m.cart_inserted = false) ∧
    (m.cart_inserted = true ↔
      (m.connected = true ∧
       m.dev_read MemoryMap.XCI_HEADER_OFFSET 4 = some HEAD_MAGIC)) := by
  unfold MIGFlash.cart_inserted
  by_cases hc : m.connected = true
  · rw [if_pos hc]
    cases hr : m.dev_read MemoryMap.XCI_HEADER_OFFSET 4 with
    | none => simp [hc, hr]
    | some bs => simp [hc, hr]
  · have hc' : m.connected = false := by
      revert hc
      cases m.connected <;> simp
    rw [if_neg hc]
    simp [hc']

/-- Claim C10 (witness): the theorem applied to the concrete disconnected
session. -/
theorem C10_cart_inserted_total_witness : c10mig.cart_inserted = false :=
  (C10_cart_inserted_total c10mig).1 rfl

set_option maxRecDepth 8000 in
/-- Claim C2: a buffer of at least 0x200 bytes whose bytes 0x100–0x104 are
not b'HEAD' always parses to an invalid header, and authenticating against a
connected device presenting such a header reports failure, moves the
controller to its fault state `ERROR` (never `AUTHENTICATED`), and leaves the
session's cartridge info — hence its authenticated flag — unchanged. -/
theorem C2_invalid_magic_auth_faults :
    (∀ (b : List Nat), 0x200 ≤ b.length →
      bslice b 0x100 0x104 ≠ HEAD_MAGIC →
      Option.map XCIHeader.is_valid (XCIHeader.from_bytes b) = some false) ∧
    (∀ (c : MIGController) (m : MIGFlash) (d : BlockDevice),
      c.mig = some m → m.device = some d → (∀ a b, d.ok a b = true) →
      m.connected = true → m.cart_inserted = true →
      bslice (readBytes d MemoryMap.XCI_HEADER_OFFSET
        MemoryMap.XCI_HEADER_SIZE) 0x100 0x104 ≠ HEAD_MAGIC →
      Except.map Prod.snd c.authenticate = Except.ok false ∧
      Except.map (fun p => p.1.state) c.authenticate =
        Except.ok MIGState.ERROR ∧
      Except.map (fun p => p.1.state) c.authenticate ≠
        Except.ok MIGState.AUTHENTICATED ∧
      Except.map (fun p => Option.map MIGFlash.cart_info p.1.mig)
        c.authenticate = Except.ok (some m.cart_info)) := by
  constructor
  · intro b hlen hbad
    rw [from_bytes_of_length hlen]
    have hbeq : (bslice b 0x100 0x104 == HEAD_MAGIC) = false :=
      beq_eq_false_iff_ne.mpr hbad
    simp [XCIHeader.is_valid, hbeq]
  · intro c m d hcm hdev hok hconn hins hbad
    have hlen : 0x200 ≤ (readBytes d MemoryMap.XCI_HEADER_OFFSET
        MemoryMap.XCI_HEADER_SIZE).length := by
      rw [readBytes_length]
      norm_num [MemoryMap.XCI_HEADER_SIZE]
    obtain ⟨hdX, hparse⟩ : ∃ hd, XCIHeader.from_bytes (readBytes d
        MemoryMap.XCI_HEADER_OFFSET MemoryMap.XCI_HEADER_SIZE) = some hd :=
      ⟨_, from_bytes_of_length hlen⟩
    have hmagicX : hdX.magic = bslice (readBytes d MemoryMap.XCI_HEADER_OFFSET
        MemoryMap.XCI_HEADER_SIZE) 0x100 0x104 := by
      have h2 := from_bytes_of_length hlen
      rw [hparse] at h2
      injection h2 with h3
      rw [h3]
    have hinv : hdX.is_valid = false := by
      unfold XCIHeader.is_valid
      rw [hmagicX]
      exact beq_eq_false_iff_ne.mpr hbad
    have hauth := authenticate_parse hdev hok hconn hins hparse
    rw [if_neg (by rw [hinv]; simp)] at hauth
    have hctrl : c.authenticate =
        Except.ok ({ c with
          mig := some ({ m with xci_header := some hdX } : MIGFlash),
          state := MIGState.ERROR }, false) := by
      unfold MIGController.authenticate
      rw [hcm]
      split
      · rename_i heq
        exact absurd heq (by simp)
      · rename_i m2 heq
        injection heq with h2
        subst h2
        rw [hauth]
    have hstate : Except.map (fun p => p.1.state) c.authenticate =
        Except.ok MIGState.ERROR := by
      rw [hctrl]
      rfl
    have hsnd : Except.map Prod.snd c.authenticate = Except.ok false := by
      rw [hctrl]
      rfl
    have hci : Except.map (fun p => Option.map MIGFlash.cart_info p.1.mig)
        c.authenticate = Except.ok (some m.cart_info) := by
      rw [hctrl]
      rfl
    refine ⟨hsnd, hstate, ?_, hci⟩
    rw [hstate]
    decide

set_option maxRecDepth 8000 in
/-- Claim C2 (witness): the concrete controller over the device presenting
an invalid-magic header. -/
theorem C2_invalid_magic_auth_faults_witness :
    Except.map Prod.snd c2ctrl.authenticate = Except.ok false ∧
    Except.map (fun p => p.1.state) c2ctrl.authenticate =
      Except.ok MIGState.ERROR := by
  have h := C2_invalid_magic_auth_faults.2 c2ctrl c2mig c2dev rfl rfl
    (fun _ _ => rfl) rfl (by decide) (by decide)
  exact ⟨h.1, h.2.1⟩

set_option maxRecDepth 100000 in
/-- Claim C6 (counterexample): on a connected but *not* authenticated session
whose device presents a valid 16 GiB-class header, `get_xci_size` does not
fail with `Authentication required`; it authenticates on the fly and returns
the sizes. -/
theorem C6_get_xci_size_counterexample :
    c6mig.cart_authenticated = false ∧
    Except.map Prod.snd c6mig.get_xci_size =
      Except.ok (17179869184, 5120) ∧
    Except.map Prod.snd c6mig.get_xci_size ≠
      Except.error MigErr.authRequired := by
  refine ⟨rfl, by decide, by decide⟩

/-- Claim C6 (amended): `get_xci_size` does not reject unauthenticated
sessions outright.  When already authenticated it returns
`(cart_size_bytes, valid_data_end * 512)` from the cached header; when not
authenticated it first attempts `authenticate` itself, failing with
`Authentication required` only if that attempt reports failure, propagating
its exceptions, and otherwise returning the sizes of the freshly parsed
header. -/
theorem C6_get_xci_size_auto_auth (m : MIGFlash) :
    (m.cart_authenticated = true → ∀ hd, m.xci_header = some hd →
      m.get_xci_size =
        Except.ok (m, (hd.cart_size_bytes, hd.valid_data_end * 512))) ∧
    (m.cart_authenticated = false → ∀ mA,
      (m.authenticate = Except.ok (mA, false) →
        m.get_xci_size = Except.error MigErr.authRequired) ∧
      (∀ hd, m.authenticate = Except.ok (mA, true) →
        mA.xci_header = some hd →
        m.get_xci_size =
          Except.ok (mA, (hd.cart_size_bytes, hd.valid_data_end * 512)))) ∧
    (m.cart_authenticated = false → ∀ e, m.authenticate = Except.error e →
      m.get_xci_size = Except.error e) := by
  refine ⟨?_, ?_, ?_⟩
  · intro ha hd hxh
    unfold MIGFlash.get_xci_size MIGFlash.get_xci_header
    rw [if_pos ha, hxh]
  · intro hna mA
    constructor
    · intro hfail
      unfold MIGFlash.get_xci_size MIGFlash.get_xci_header
      rw [if_neg (by simp [hna]), hfail]
    · intro hd hsucc hxh
      have hdr : m.get_xci_header = Except.ok (mA, mA.xci_header) := by
        unfold MIGFlash.get_xci_header
        rw [if_neg (by simp [hna]), hsucc]
      unfold MIGFlash.get_xci_size
      rw [hdr, hxh]
  · intro hna e herr
    unfold MIGFlash.get_xci_size MIGFlash.get_xci_header
    rw [if_neg (by simp [hna]), herr]

/-- Claim C6 (witness): the amended theorem applied to the concrete
already-authenticated session. -/
theorem C6_get_xci_size_auto_auth_witness :
    c6auth.get_xci_size = Except.ok (c6auth, (17179869184, 5120)) :=
  (C6_get_xci_size_auto_auth c6auth).1 rfl (mkHeader 0xE1 10) rfl

theorem get_xci_size_of_auth {m : MIGFlash} {hd : XCIHeader}
    (hma : m.cart_authenticated = true) (hxh : m.xci_header = some hd) :
    m.get_xci_size =
      Except.ok (m, (hd.cart_size_bytes, hd.valid_data_end * 0x200)) := by
  unfold MIGFlash.get_xci_size MIGFlash.get_xci_header
  rw [if_pos hma, hxh]

/-- Claim C5: for every buffer of at least 0x200 bytes, `from_bytes` reads
the capacity class code from the single byte at offset 0x10D and the
valid-data-end counter as the little-endian 8-byte integer at offset 0x118;
`cart_size_bytes` maps the class codes 0xFA, 0xF8, 0xF0, 0xE0, 0xE1, 0xE2 to
1, 2, 4, 8, 16, 32 GiB and every other code to 0; and the used size
`get_xci_size` reports for a session holding the header is
valid-data-end × 512. -/
theorem C5_header_parse_fields (b : List Nat) (hlen : 0x200 ≤ b.length) :
    ∃ hd, XCIHeader.from_bytes b = some hd ∧
      hd.game_card_size = byteAt b 0x10D ∧
      hd.valid_data_end =
        byteAt b 0x118 + 256 * (byteAt b 0x119 + 256 * (byteAt b 0x11A +
          256 * (byteAt b 0x11B + 256 * (byteAt b 0x11C + 256 *
          (byteAt b 0x11D + 256 * (byteAt b 0x11E + 256 *
          byteAt b 0x11F)))))) ∧
      (hd.game_card_size = 0xFA → hd.cart_size_bytes = 1073741824) ∧
      (hd.game_card_size = 0xF8 → hd.cart_size_bytes = 2147483648) ∧
      (hd.game_card_size = 0xF0 → hd.cart_size_bytes = 4294967296) ∧
      (hd.game_card_size = 0xE0 → hd.cart_size_bytes = 8589934592) ∧
      (hd.game_card_size = 0xE1 → hd.cart_size_bytes = 17179869184) ∧
      (hd.game_card_size = 0xE2 → hd.cart_size_bytes = 34359738368) ∧
      (hd.game_card_size ∉ ([0xFA, 0xF8, 0xF0, 0xE0, 0xE1, 0xE2] : List Nat) →
        hd.cart_size_bytes = 0) ∧
      (∀ (m : MIGFlash), m.cart_authenticated = true →
        m.xci_header = some hd → ∀ mS sz,
        m.get_xci_size = Except.ok (mS, sz) →
        sz.2 = hd.valid_data_end * 512) := by
  refine ⟨_, from_bytes_of_length hlen, rfl, ?_, ?_, ?_, ?_, ?_, ?_, ?_, ?_,
    ?_⟩
  · show leBytes (bslice b 0x118 0x120) = _
    rw [bslice_eq_map (show (0x120 : Nat) ≤ b.length by omega)]
    rw [show List.range' 0x118 (0x120 - 0x118) =
      [0x118, 0x119, 0x11A, 0x11B, 0x11C, 0x11D, 0x11E, 0x11F] from rfl]
    simp [leBytes]
  · intro h
    have h2 : byteAt b 0x10D = 0xFA := h
    show XCIHeader.cart_size_bytes _ = _
    unfold XCIHeader.cart_size_bytes
    norm_num [h2]
  · intro h
    have h2 : byteAt b 0x10D = 0xF8 := h
    show XCIHeader.cart_size_bytes _ = _
    unfold XCIHeader.cart_size_bytes
    norm_num [h2]
  · intro h
    have h2 : byteAt b 0x10D = 0xF0 := h
    show XCIHeader.cart_size_bytes _ = _
    unfold XCIHeader.cart_size_bytes
    norm_num [h2]
  · intro h
    have h2 : byteAt b 0x10D = 0xE0 := h
    show XCIHeader.cart_size_bytes _ = _
    unfold XCIHeader.cart_size_bytes
    norm_num [h2]
  · intro h
    have h2 : byteAt b 0x10D = 0xE1 := h
    show XCIHeader.cart_size_bytes _ = _
    unfold XCIHeader.cart_size_bytes
    norm_num [h2]
  · intro h
    have h2 : byteAt b 0x10D = 0xE2 := h
    show XCIHeader.cart_size_bytes _ = _
    unfold XCIHeader.cart_size_bytes
    norm_num [h2]
  · intro hnot
    simp only [List.mem_cons, List.not_mem_nil] at hnot
    push_neg at hnot
    have n1 : ¬(byteAt b 0x10D = 0xFA) := hnot.1
    have n2 : ¬(byteAt b 0x10D = 0xF8) := hnot.2.1
    have n3 : ¬(byteAt b 0x10D = 0xF0) := hnot.2.2.1
    have n4 : ¬(byteAt b 0x10D = 0xE0) := hnot.2.2.2.1
    have n5 : ¬(byteAt b 0x10D = 0xE1) := hnot.2.2.2.2.1
    have n6 : ¬(byteAt b 0x10D = 0xE2) := hnot.2.2.2.2.2.1
    show XCIHeader.cart_size_bytes _ = _
    unfold XCIHeader.cart_size_bytes
    rw [if_neg n1, if_neg n2, if_neg n3, if_neg n4, if_neg n5, if_neg n6]
  · intro m hma hxh mS sz hsz
    rw [get_xci_size_of_auth hma hxh] at hsz
    injection hsz with h2
    injection h2 with h3 h4
    rw [← h4]

set_option maxRecDepth 100000 in
/-- Claim C5 (witness): the parse theorem applied to the concrete all-zero
0x200-byte buffer. -/
theorem C5_header_parse_fields_witness :
    Option.map XCIHeader.valid_data_end (XCIHeader.from_bytes bC5) = some 0 ∧
    Option.map XCIHeader.cart_size_bytes (XCIHeader.from_bytes bC5) =
      some 0 := by
  obtain ⟨hd, hfb, hgc, hvde, _, _, _, _, _, _, hunk, _⟩ :=
    C5_header_parse_fields bC5 (by decide)
  have hz : hd.game_card_size = 0 := by
    rw [hgc]
    decide
  rw [hfb]
  constructor
  · simp only [Option.map_some']
    rw [hvde]
    decide
  · simp only [Option.map_some']
    rw [hunk (by rw [hz]; decide)]

theorem dump_xci_of_auth {m : MIGFlash} {hd : XCIHeader} (trimmed : Bool)
    (ab : Nat → Bool)
    (hauth : m.cart_authenticated = true) (hxh : m.xci_header = some hd) :
    m.dump_xci trimmed ab =
      Except.ok (m, dumpLoop m ab
        (if trimmed then hd.valid_data_end * 0x200 else hd.cart_size_bytes)
        0) := by
  unfold MIGFlash.dump_xci
  rw [if_pos hauth]
  show (match m.get_xci_size with
    | Except.error e => Except.error e
    | Except.ok (mB, (total_size, trimmed_size)) =>
      Except.ok (mB, dumpLoop mB ab
        (if trimmed then trimmed_size else total_size) 0)) = _
  rw [get_xci_size_of_auth hauth hxh]

set_option maxRecDepth 8000 in
set_option maxHeartbeats 1000000 in
/-- Claim C4: with a valid header whose capacity class code is 0xE2 and whose
valid-data-end counter is 2,000,000 sectors, `authenticate` succeeds and
records total size 34,359,738,368 bytes and trimmed (used) size
1,024,000,000 bytes, and a subsequent `dump_xci` with `trimmed = true` and no
abort writes exactly 1,024,000,000 bytes, completes, and makes its final
progress-callback invocation with `bytes_done = bytes_total =
1,024,000,000`. -/
theorem C4_end_to_end_dump (m : MIGFlash) (d : BlockDevice)
    (hdev : m.device = some d) (hok : ∀ a b, d.ok a b = true)
    (hconn : m.connected = true)
    (hins : readBytes d MemoryMap.XCI_HEADER_OFFSET 4 = HEAD_MAGIC)
    (hmagic : bslice (readBytes d MemoryMap.XCI_HEADER_OFFSET
      MemoryMap.XCI_HEADER_SIZE) 0x100 0x104 = HEAD_MAGIC)
    (hcode : byteAt (readBytes d MemoryMap.XCI_HEADER_OFFSET
      MemoryMap.XCI_HEADER_SIZE) 0x10D = 0xE2)
    (hvde : leBytes (bslice (readBytes d MemoryMap.XCI_HEADER_OFFSET
      MemoryMap.XCI_HEADER_SIZE) 0x118 0x120) = 2000000) :
    Except.map Prod.snd m.authenticate = Except.ok true ∧
    Except.map (fun p => Option.map CartridgeInfo.size p.1.cart_info)
      m.authenticate = Except.ok (some 34359738368) ∧
    Except.map (fun p => Option.map CartridgeInfo.trimmed_size p.1.cart_info)
      m.authenticate = Except.ok (some 1024000000) ∧
    (∀ mA, m.authenticate = Except.ok (mA, true) →
      Except.map (fun p => (p.2.1.length, p.2.2.1.getLast?, p.2.2.2))
        (mA.dump_xci true (fun _ => false)) =
      Except.ok (1024000000, some ((1024000000 : Nat), (1024000000 : Nat)),
        DumpOutcome.completed)) := by
  have hlen : 0x200 ≤ (readBytes d MemoryMap.XCI_HEADER_OFFSET
      MemoryMap.XCI_HEADER_SIZE).length := by
    rw [readBytes_length]
    norm_num [MemoryMap.XCI_HEADER_SIZE]
  have hinsval : m.cart_inserted = true := by
    rw [cart_inserted_all_ok hdev hok hconn, hins]
    rfl
  obtain ⟨hdX, hparse⟩ : ∃ hd, XCIHeader.from_bytes (readBytes d
      MemoryMap.XCI_HEADER_OFFSET MemoryMap.XCI_HEADER_SIZE) = some hd :=
    ⟨_, from_bytes_of_length hlen⟩
  have hfields := from_bytes_of_length hlen
  rw [hparse] at hfields
  injection hfields with hXlit
  have hgcX : hdX.game_card_size = byteAt (readBytes d
      MemoryMap.XCI_HEADER_OFFSET MemoryMap.XCI_HEADER_SIZE) 0x10D := by
    rw [hXlit]
  have hvdeX : hdX.valid_data_end = leBytes (bslice (readBytes d
      MemoryMap.XCI_HEADER_OFFSET MemoryMap.XCI_HEADER_SIZE) 0x118 0x120) := by
    rw [hXlit]
  have hmagicX : hdX.magic = bslice (readBytes d
      MemoryMap.XCI_HEADER_OFFSET MemoryMap.XCI_HEADER_SIZE) 0x100 0x104 := by
    rw [hXlit]
  have hvalidX : hdX.is_valid = true := by
    unfold XCIHeader.is_valid
    rw [hmagicX, hmagic]
    rfl
  have hszX : hdX.cart_size_bytes = 34359738368 := by
    unfold XCIHeader.cart_size_bytes
    rw [hgcX, hcode]
    norm_num
  have htrX : hdX.valid_data_end * 0x200 = 1024000000 := by
    rw [hvdeX, hvde]
  have hauth := authenticate_parse hdev hok hconn hinsval hparse
  rw [if_pos hvalidX] at hauth
  refine ⟨?_, ?_, ?_, ?_⟩
  · rw [hauth]
    rfl
  · rw [hauth]
    show Except.ok (some hdX.cart_size_bytes) = _
    rw [hszX]
  · rw [hauth]
    show Except.ok (some (hdX.valid_data_end * 0x200)) = _
    rw [htrX]
  · intro mA hA
    rw [hauth] at hA
    injection hA with h2
    injection h2 with h3 h4
    have hdevA : mA.device = some d := by
      rw [← h3]
      exact hdev
    have hauthA : mA.cart_authenticated = true := by
      rw [← h3]
      rfl
    have hhdrA : mA.xci_header = some hdX := by
      rw [← h3]
    rw [dump_xci_of_auth true (fun _ => false) hauthA hhdrA,
      if_pos rfl, htrX]
    obtain ⟨hl, hc, hg⟩ := dumpLoop_complete hdevA hok hauthA
      (fun _ => rfl) 1024000000 0 (by norm_num)
    show Except.ok
        ((dumpLoop mA (fun _ => false) 1024000000 0).1.length,
         (dumpLoop mA (fun _ => false) 1024000000 0).2.1.getLast?,
         (dumpLoop mA (fun _ => false) 1024000000 0).2.2) = _
    rw [hl, hc, hg (by norm_num)]

set_option maxRecDepth 400000 in
/-- Claim C4 (witness): the end-to-end theorem applied to the concrete
session over the device presenting the 32 GiB-class header. -/
theorem C4_end_to_end_dump_witness :
    Except.map Prod.snd c4mig.authenticate = Except.ok true ∧
    Except.map (fun p => Option.map CartridgeInfo.size p.1.cart_info)
      c4mig.authenticate = Except.ok (some 34359738368) ∧
    Except.map (fun p => Option.map CartridgeInfo.trimmed_size p.1.cart_info)
      c4mig.authenticate = Except.ok (some 1024000000) := by
  have h := C4_end_to_end_dump c4mig c4dev rfl (fun _ _ => rfl) rfl
    (by decide) (by decide) (by decide) (by decide)
  exact ⟨h.1, h.2.1, h.2.2.1⟩

set_option maxRecDepth 8000 in
/-- Claim C7: once the cancellation flag set by `abort_dump` is observed from
`t` written bytes onwards during an in-flight trimmed dump, the dump worker
writes at most one more chunk (at most `CHUNK_SIZE = 1 MiB` beyond `t`),
terminates reporting the abort (`DUMP_ERROR` with the abort message), and
leaves the controller in `AUTHENTICATED`, not the fault state `ERROR`. -/
theorem C7_abort_within_one_chunk (c : MIGController) (m : MIGFlash)
    (d : BlockDevice) (hd : XCIHeader) (ab : Nat → Bool) (t : Nat)
    (hcm : c.mig = some m) (hdev : m.device = some d)
    (hok : ∀ a b, d.ok a b = true)
    (hauth : m.cart_authenticated = true) (hxh : m.xci_header = some hd)
    (hpos : 0 < hd.valid_data_end * 0x200)
    (ht : t ≤ hd.valid_data_end * 0x200)
    (hab : ∀ n, t ≤ n → ab n = true) :
    (c.abort_dump).abort_flag = true ∧
    (c.dump_worker true ab).finalState = MIGState.AUTHENTICATED ∧
    (c.dump_worker true ab).finalState ≠ MIGState.ERROR ∧
    (c.dump_worker true ab).finalEvent = MIGEvent.DUMP_ERROR ∧
    (c.dump_worker true ab).finalMessage = ABORT_MESSAGE ∧
    (c.dump_worker true ab).written.length ≤ t + CHUNK_SIZE := by
  have hdump := dump_xci_of_auth true ab hauth hxh
  rw [if_pos rfl] at hdump
  obtain ⟨hout, hlen⟩ := dumpLoop_abort hdev hok hauth t hab
    (hd.valid_data_end * 0x200) ht 0 hpos
  rcases hdl : dumpLoop m ab (hd.valid_data_end * 0x200) 0 with
    ⟨bytes, prog, out⟩
  rw [hdl] at hout hlen hdump
  have hout2 : out = DumpOutcome.interrupted := hout
  have hlen2 : bytes.length ≤ t - 0 + CHUNK_SIZE := hlen
  subst hout2
  have hworker : c.dump_worker true ab =
      { finalState := MIGState.AUTHENTICATED,
        finalEvent := MIGEvent.DUMP_ERROR,
        finalMessage := ABORT_MESSAGE,
        written := bytes, progressCalls := prog } := by
    unfold MIGController.dump_worker
    rw [hcm]
    show @Eq DumpRun (match m.dump_xci true ab with
      | Except.error _ =>
          { finalState := MIGState.ERROR, finalEvent := MIGEvent.DUMP_ERROR,
            finalMessage := ERROR_MESSAGE, written := [],
            progressCalls := [] }
      | Except.ok (_, (bytes2, prog2, out2)) =>
        match out2 with
        | DumpOutcome.completed =>
            { finalState := MIGState.AUTHENTICATED,
              finalEvent := MIGEvent.DUMP_COMPLETE,
              finalMessage := COMPLETE_MESSAGE,
              written := bytes2, progressCalls := prog2 }
        | DumpOutcome.interrupted =>
            { finalState := MIGState.AUTHENTICATED,
              finalEvent := MIGEvent.DUMP_ERROR,
              finalMessage := ABORT_MESSAGE,
              written := bytes2, progressCalls := prog2 }
        | DumpOutcome.ioError =>
            { finalState := MIGState.ERROR,
              finalEvent := MIGEvent.DUMP_ERROR,
              finalMessage := ERROR_MESSAGE,
              written := bytes2, progressCalls := prog2 })
      { finalState := MIGState.AUTHENTICATED,
        finalEvent := MIGEvent.DUMP_ERROR,
        finalMessage := ABORT_MESSAGE,
        written := bytes, progressCalls := prog }
    rw [hdump]
  rw [hworker]
  refine ⟨rfl, rfl, ?_, rfl, rfl, ?_⟩
  · show MIGState.AUTHENTICATED ≠ MIGState.ERROR
    decide
  · show bytes.length ≤ t + CHUNK_SIZE
    omega

/-- Claim C7 (witness): the abort theorem applied to the concrete mid-dump
controller whose flag is observed set from 1000 written bytes onwards. -/
theorem C7_abort_within_one_chunk_witness :
    (c7ctrl.dump_worker true c7ab).finalState = MIGState.AUTHENTICATED ∧
    (c7ctrl.dump_worker true c7ab).finalMessage = ABORT_MESSAGE ∧
    (c7ctrl.dump_worker true c7ab).written.length ≤ 1000 + CHUNK_SIZE := by
  have h := C7_abort_within_one_chunk c7ctrl c7mig zeroDev (mkHeader 0xE2 4)
    c7ab 1000 rfl rfl (fun _ _ => rfl) rfl rfl (by decide) (by decide)
    (fun n hn => decide_eq_true hn)
  exact ⟨h.2.1, h.2.2.2.2.1, h.2.2.2.2.2⟩
